import Mathlib

/-!
Shallow embedding of `SecondaryTableController.cpp` (secondary routing-table
policy manager of a network daemon) and proofs about it.

External collaborators (the network-identity registry, the process-execution
facility `runCmd`/`execIptables`, the reporting socket) are modelled as an
environment of pure functions; each external command invocation is recorded
as a `KCmd` value in the order the code issues it, and its exit status is
given by the environment's `exec` oracle.  A call of `execIptables` is
modelled as a single `KCmd` carrying its address-family target.  The `errno`
assignments of the code are modelled by an `errnoSet` field recording the
value a call assigns to `errno` (`none` when the call leaves it alone).
-/

namespace STC

/-- Modelled from the spec: `BASE_TABLE_NUMBER`, the fixed offset added to a
network id to obtain the routing-table index / fwmark.  It is defined in
`SecondaryTableController.h` (not in the sources at hand); the spec's worked
example uses `1000` (netId 5 maps to table 1005). -/
def BASE_TABLE_NUMBER : Nat := 1000

/-- Modelled from the spec: `IP_PATH`, the path of the external `ip` tool,
from `NetdConstants.h` (not in the sources at hand). -/
def IP_PATH : String := "/system/bin/ip"

/-- Modelled from the spec: `RULE_PRIO`, the policy-rule priority string from
the controller's header (not in the sources at hand); kept symbolic, no claim
depends on its value. -/
def RULE_PRIO : String := "RULE_PRIO"

/-- Modelled from the spec: the `ADD` action string from `NetdConstants.h`. -/
def ADD : String := "add"

/-- Modelled from the spec: the `DEL` action string from `NetdConstants.h`. -/
def DEL : String := "del"

/-- errno value `EBUSY` (device or resource busy). -/
def EBUSY : Nat := 16

/-- errno value `ENODEV` (no such device). -/
def ENODEV : Nat := 19

/-- errno value `EINVAL` (invalid argument). -/
def EINVAL : Nat := 22

def LOCAL_MANGLE_OUTPUT : String := "st_mangle_OUTPUT"

def LOCAL_NAT_POSTROUTING : String := "st_nat_POSTROUTING"

def LOCAL_FILTER_OUTPUT : String := "st_filter_OUTPUT"

/-- `snprintf(chain_str, ..., LOCAL_MANGLE_IFACE_FORMAT, iface)` with format
`"st_mangle_%s_OUTPUT"`. -/
def chainStr (iface : String) : String := "st_mangle_" ++ iface ++ "_OUTPUT"

/-- `snprintf(mark_str, ..., "%u", netId + BASE_TABLE_NUMBER)`. -/
def markStr (netId : Nat) : String := toString (netId + BASE_TABLE_NUMBER)

/-- Address-family selector of an `execIptables` call (`IptablesTarget`). -/
inductive IptTarget
  | V4
  | V6
  | V4V6
deriving DecidableEq

/-- One external kernel command issued by the controller: either an `ip`
invocation through `runCmd`, or an iptables invocation through
`execIptables` with its target family. -/
inductive KCmd
  | ip (argv : List String)
  | ipt (target : IptTarget) (argv : List String)
deriving DecidableEq

/-- The externals the controller consumes: the command executor (exit status
per command) and the network-identity registry (`getNetworkId`,
`setNetworkForUidRange`). -/
structure Env where
  exec : KCmd → Int
  getNetworkId : String → Nat
  setNetworkForUidRange : Int → Int → Nat → Bool → Bool

/-- `mNetIdRuleCount : std::map<unsigned, int>`, modelled extensionally:
`none` means the key is absent. -/
def RuleCountMap : Type := Nat → Option Int

/-- The empty map (initial daemon state). -/
def emptyMap : RuleCountMap := fun _ => none

/-- `map[k] = v` (insert or overwrite). -/
def mapInsert (m : RuleCountMap) (k : Nat) (v : Int) : RuleCountMap :=
  fun x => if x = k then some v else m x

/-- `map.erase(k)`. -/
def mapErase (m : RuleCountMap) (k : Nat) : RuleCountMap :=
  fun x => if x = k then none else m x

/-- `std::map::count(k)`: 1 if the key is present, else 0. -/
def mapCount (m : RuleCountMap) (k : Nat) : Nat :=
  if (m k).isSome then 1 else 0

/-- `SecondaryTableController::modifyRuleCount(netId, action)`:
on `ADD`, default-insert `0` when absent, then `++`; otherwise (any
non-`ADD` action), when present, `--` and erase the entry when the new
count drops below 1. -/
def modifyRuleCount (m : RuleCountMap) (netId : Nat) (action : String) :
    RuleCountMap :=
  if action = ADD then
    let m1 := if (m netId).isNone then mapInsert m netId 0 else m
    mapInsert m1 netId ((m1 netId).getD 0 + 1)
  else
    if 0 < mapCount m netId then
      if (m netId).getD 0 - 1 < 1 then mapErase m netId
      else mapInsert m netId ((m netId).getD 0 - 1)
    else m

/-- Well-formedness of the reference-count map: every entry's count is ≥ 1
(the spec's §3 invariant on `RuleReferenceCount`). -/
def RuleCountWF (m : RuleCountMap) : Prop :=
  ∀ k c, m k = some c → 1 ≤ c

/-- Apply a sequence of `modifyRuleCount` operations to the empty map. -/
def applyOps (ops : List (Nat × String)) : RuleCountMap :=
  ops.foldl (fun m p => modifyRuleCount m p.1 p.2) emptyMap

/-- A sample well-formed reference-count map: netId 7 held with count 2. -/
def sampleMap : RuleCountMap := mapInsert emptyMap 7 2

/-- Response codes sent over the reporting socket (`ResponseCode.h` is not in
the sources at hand; the codes are kept symbolic). -/
inductive ResponseCode
  | CommandOkay
  | OperationFailed
  | GetMarkResult
deriving DecidableEq

/-- Observable outcome of `modifyRoute`: the returned status, the map after
the call, the kernel commands issued (in order), the messages sent to the
client, and the errno value assigned by the call (`none` = untouched). -/
structure RouteOut where
  ret : Int
  map : RuleCountMap
  cmds : List KCmd
  msgs : List (ResponseCode × String)
  errnoSet : Option Nat

/-- `SecondaryTableController::modifyRoute(cli, action, iface, dest, prefix,
gateway, netId)`: build the route command (`dev`-only when the gateway is
exactly the string `"::"`, else `via`-gateway), run it; on non-zero exit set
`errno = ENODEV`, send `OperationFailed` and return −1 leaving the map
alone; on success call `modifyRuleCount` and send `CommandOkay`. -/
def modifyRoute (e : Env) (m : RuleCountMap) (action : String)
    (iface dest : String) (pfx : Int) (gateway : String) (netId : Nat) :
    RouteOut :=
  let dest_str := dest ++ "/" ++ toString pfx
  let tableIndex_str := toString (netId + BASE_TABLE_NUMBER)
  let cmd : KCmd :=
    if gateway = "::" then
      KCmd.ip [IP_PATH, "route", action, dest_str, "dev", iface,
        "table", tableIndex_str]
    else
      KCmd.ip [IP_PATH, "route", action, dest_str, "via", gateway,
        "dev", iface, "table", tableIndex_str]
  let ret := e.exec cmd
  if ret ≠ 0 then
    { ret := -1, map := m, cmds := [cmd],
      msgs := [(ResponseCode.OperationFailed, "ip route modification failed")],
      errnoSet := some ENODEV }
  else
    { ret := 0, map := modifyRuleCount m netId action, cmds := [cmd],
      msgs := [(ResponseCode.CommandOkay, "Route modified")],
      errnoSet := none }

/-- `SecondaryTableController::addRoute`. -/
def addRoute (e : Env) (m : RuleCountMap) (iface dest : String) (pfx : Int)
    (gateway : String) : RouteOut :=
  modifyRoute e m ADD iface dest pfx gateway (e.getNetworkId iface)

/-- `SecondaryTableController::removeRoute`. -/
def removeRoute (e : Env) (m : RuleCountMap) (iface dest : String)
    (pfx : Int) (gateway : String) : RouteOut :=
  modifyRoute e m DEL iface dest pfx gateway (e.getNetworkId iface)

/-- `add ? "add" : "del"`. -/
def addDelStr (add : Bool) : String := if add then "add" else "del"

/-- `add ? "-A" : "-D"`. -/
def addDelFlag (add : Bool) : String := if add then "-A" else "-D"

/-- `route_cmd` of `setFwmarkRule`: the v4 catch-all default route in the
interface's table. -/
def route_cmd (add : Bool) (iface mark : String) : KCmd :=
  KCmd.ip [IP_PATH, "route", addDelStr add, "default", "dev", iface,
    "table", mark]

/-- `fwmark_cmd` of `setFwmarkRule`: the v4 policy rule `fwmark m → table m`
at priority `RULE_PRIO`. -/
def fwmark_cmd (add : Bool) (mark : String) : KCmd :=
  KCmd.ip [IP_PATH, "rule", addDelStr add, "prio", RULE_PRIO, "fwmark",
    mark, "table", mark]

/-- `route6_cmd` of `setFwmarkRule`: the v6 catch-all default route. -/
def route6_cmd (add : Bool) (iface mark : String) : KCmd :=
  KCmd.ip [IP_PATH, "-6", "route", addDelStr add, "default", "dev", iface,
    "table", mark]

/-- `fwmark6_cmd` of `setFwmarkRule`: the v6 policy rule. -/
def fwmark6_cmd (add : Bool) (mark : String) : KCmd :=
  KCmd.ip [IP_PATH, "-6", "rule", addDelStr add, "prio", RULE_PRIO,
    "fwmark", mark, "table", mark]

/-- The three `execIptables` calls of the `add` branch of `setFwmarkRule`:
create the per-interface mangle chain, insert the mark-match jump into the
master output chain at position 3, and append the mark-clearing rule. -/
def mangleCmdsAdd (iface mark : String) : List KCmd :=
  [KCmd.ipt IptTarget.V4V6 ["-t", "mangle", "-N", chainStr iface],
   KCmd.ipt IptTarget.V4V6 ["-t", "mangle", "-I", LOCAL_MANGLE_OUTPUT, "3",
     "-m", "mark", "--mark", mark, "-g", chainStr iface],
   KCmd.ipt IptTarget.V4V6 ["-t", "mangle", "-A", chainStr iface, "-j",
     "MARK", "--set-mark", "0"]]

/-- The three `execIptables` calls of the `del` branch of `setFwmarkRule`:
delete the jump rule, flush the per-interface chain, destroy it. -/
def mangleCmdsDel (iface mark : String) : List KCmd :=
  [KCmd.ipt IptTarget.V4V6 ["-t", "mangle", "-D", LOCAL_MANGLE_OUTPUT, "-m",
     "mark", "--mark", mark, "-g", chainStr iface],
   KCmd.ipt IptTarget.V4V6 ["-t", "mangle", "-F", chainStr iface],
   KCmd.ipt IptTarget.V4V6 ["-t", "mangle", "-X", chainStr iface]]

/-- The NAT masquerade command of `setFwmarkRule` for the given family. -/
def nat_cmd (target : IptTarget) (add : Bool) (iface mark : String) : KCmd :=
  KCmd.ipt target ["-t", "nat", addDelFlag add, LOCAL_NAT_POSTROUTING, "-o",
    iface, "-m", "mark", "--mark", mark, "-j", "MASQUERADE"]

/-- The v6 REJECT fallback command of `setFwmarkRule`. -/
def reject_cmd (add : Bool) (mark : String) : KCmd :=
  KCmd.ipt IptTarget.V6 ["-t", "filter", addDelFlag add, LOCAL_FILTER_OUTPUT,
    "-m", "mark", "--mark", mark, "-j", "REJECT"]

/-- Observable outcome of `setFwmarkRule` (and of `setUidRule`). -/
structure FwOut where
  ret : Int
  map : RuleCountMap
  cmds : List KCmd
  errnoSet : Option Nat

/-- `SecondaryTableController::setFwmarkRule(iface, add)`, transcribed with
its exact control flow: the busy guard, then `ret = runCmd(route_cmd)`
overwritten by `ret = runCmd(fwmark_cmd)` with an early return on failure,
the same pattern for the v6 pair, the OR-accumulated mangle-chain block
whose accumulated value is then overwritten by the v4 NAT result (early
return on failure), and finally the v6 NAT attempt with the REJECT fallback
whose status becomes the return value. -/
def setFwmarkRule (e : Env) (m : RuleCountMap) (iface : String) (add : Bool) :
    FwOut :=
  let netId := e.getNetworkId iface
  if 0 < mapCount m netId then
    { ret := -1, map := m, cmds := [], errnoSet := some EBUSY }
  else
    let mark := markStr netId
    let c1 := route_cmd add iface mark
    let _r1 := e.exec c1
    let c2 := fwmark_cmd add mark
    let r2 := e.exec c2
    if r2 ≠ 0 then
      { ret := r2, map := m, cmds := [c1, c2], errnoSet := none }
    else
      let c3 := route6_cmd add iface mark
      let _r3 := e.exec c3
      let c4 := fwmark6_cmd add mark
      let r4 := e.exec c4
      if r4 ≠ 0 then
        { ret := r4, map := m, cmds := [c1, c2, c3, c4], errnoSet := none }
      else
        let mcs := if add then mangleCmdsAdd iface mark
          else mangleCmdsDel iface mark
        let _rm := mcs.foldl (fun acc c => Int.lor acc (e.exec c)) (0 : Int)
        let c5 := nat_cmd IptTarget.V4 add iface mark
        let r5 := e.exec c5
        if r5 ≠ 0 then
          { ret := r5, map := m, cmds := [c1, c2, c3, c4] ++ mcs ++ [c5],
            errnoSet := none }
        else
          let c6 := nat_cmd IptTarget.V6 add iface mark
          let r6 := e.exec c6
          if r6 ≠ 0 then
            let c7 := reject_cmd add mark
            { ret := e.exec c7, map := m,
              cmds := [c1, c2, c3, c4] ++ mcs ++ [c5, c6, c7],
              errnoSet := none }
          else
            { ret := 0, map := m,
              cmds := [c1, c2, c3, c4] ++ mcs ++ [c5, c6],
              errnoSet := none }

/-- `SecondaryTableController::addFwmarkRule` (spec: `enableFwmarkRouting`). -/
def addFwmarkRule (e : Env) (m : RuleCountMap) (iface : String) : FwOut :=
  setFwmarkRule e m iface true

/-- `SecondaryTableController::removeFwmarkRule`
(spec: `disableFwmarkRouting`). -/
def removeFwmarkRule (e : Env) (m : RuleCountMap) (iface : String) : FwOut :=
  setFwmarkRule e m iface false

/-- The owner-match `execIptables` command of `setUidRule`. -/
def uid_cmd (add : Bool) (iface : String) (uid_start uid_end : Int) : KCmd :=
  KCmd.ipt IptTarget.V4V6 ["-t", "mangle", addDelFlag add,
    LOCAL_MANGLE_OUTPUT, "-m", "owner", "--uid-owner",
    toString uid_start ++ "-" ++ toString uid_end, "-g", chainStr iface]

/-- `SecondaryTableController::setUidRule(iface, uid_start, uid_end, add)`:
ask the registry to (un)bind the UID range; on rejection set
`errno = EINVAL` and return −1 with no kernel command; otherwise issue the
owner-match rule command and return its status. -/
def setUidRule (e : Env) (iface : String) (uid_start uid_end : Int)
    (add : Bool) : FwOut :=
  let netId := e.getNetworkId iface
  if !(e.setNetworkForUidRange uid_start uid_end (if add then netId else 0)
      false) then
    { ret := -1, map := emptyMap, cmds := [], errnoSet := some EINVAL }
  else
    let c := uid_cmd add iface uid_start uid_end
    { ret := e.exec c, map := emptyMap, cmds := [c], errnoSet := none }

/-- `SecondaryTableController::addUidRule` (spec: `addUidBinding`). -/
def addUidRule (e : Env) (iface : String) (uid_start uid_end : Int) : FwOut :=
  setUidRule e iface uid_start uid_end true

/-- `SecondaryTableController::removeUidRule` (spec: `removeUidBinding`). -/
def removeUidRule (e : Env) (iface : String) (uid_start uid_end : Int) :
    FwOut :=
  setUidRule e iface uid_start uid_end false

/-- A concrete environment where every external command succeeds and every
interface resolves to netId 5. -/
def envAllOk : Env where
  exec := fun _ => 0
  getNetworkId := fun _ => 5
  setNetworkForUidRange := fun _ _ _ _ => true

/-- A concrete environment where exactly the v4 default-route command of an
`add` run on `tun0` (netId 5) fails and everything else succeeds. -/
def envRouteFails : Env where
  exec := fun c => if c = route_cmd true "tun0" (markStr 5) then 1 else 0
  getNetworkId := fun _ => 5
  setNetworkForUidRange := fun _ _ _ _ => true

/-- A concrete environment where exactly the v6 NAT masquerade command of an
`add` run on `tun0` (netId 5) fails and everything else succeeds. -/
def envNoV6Nat : Env where
  exec := fun c =>
    if c = nat_cmd IptTarget.V6 true "tun0" (markStr 5) then 1 else 0
  getNetworkId := fun _ => 5
  setNetworkForUidRange := fun _ _ _ _ => true

/-- A concrete environment where exactly the v4 fwmark policy-rule command
of an `add` run on `tun0` (netId 5) fails and everything else succeeds. -/
def envFwmarkFails : Env where
  exec := fun c => if c = fwmark_cmd true (markStr 5) then 1 else 0
  getNetworkId := fun _ => 5
  setNetworkForUidRange := fun _ _ _ _ => true

/-- A concrete environment whose identity registry rejects every UID-range
binding. -/
def envRegistryReject : Env where
  exec := fun _ => 0
  getNetworkId := fun _ => 5
  setNetworkForUidRange := fun _ _ _ _ => false

/-- A concrete map in which netId 5 already holds one manual rule
reference. -/
def busyMap : RuleCountMap := mapInsert emptyMap 5 1

theorem modifyRuleCount_apply_other (m : RuleCountMap) (netId : Nat)
    (action : String) (k : Nat) (hne : k ≠ netId) :
    modifyRuleCount m netId action k = m k := by
  unfold modifyRuleCount
  by_cases ha : action = ADD
  · rw [if_pos ha]
    by_cases hn : (m netId).isNone = true
    · rw [if_pos hn]; simp [mapInsert, hne]
    · rw [if_neg hn]; simp [mapInsert, hne]
  · rw [if_neg ha]
    by_cases hp : 0 < mapCount m netId
    · rw [if_pos hp]
      by_cases hlt : (m netId).getD 0 - 1 < 1
      · rw [if_pos hlt]; simp [mapErase, hne]
      · rw [if_neg hlt]; simp [mapInsert, hne]
    · rw [if_neg hp]

theorem modifyRuleCount_apply_add (m : RuleCountMap) (netId : Nat) :
    modifyRuleCount m netId ADD netId = some ((m netId).getD 0 + 1) := by
  unfold modifyRuleCount
  rw [if_pos rfl]
  by_cases hn : (m netId).isNone = true
  · rw [if_pos hn]
    have h0 : m netId = none := Option.isNone_iff_eq_none.mp hn
    simp [mapInsert, h0]
  · rw [if_neg hn]
    simp [mapInsert]

theorem modifyRuleCount_apply_del_absent (m : RuleCountMap) (netId : Nat)
    (action : String) (ha : action ≠ ADD) (h0 : m netId = none) :
    modifyRuleCount m netId action netId = none := by
  unfold modifyRuleCount
  rw [if_neg ha, if_neg (by simp [mapCount, h0])]
  exact h0

theorem modifyRuleCount_apply_del_present (m : RuleCountMap) (netId : Nat)
    (action : String) (c : Int) (ha : action ≠ ADD) (hc : m netId = some c) :
    modifyRuleCount m netId action netId =
      (if c - 1 < 1 then none else some (c - 1)) := by
  unfold modifyRuleCount
  rw [if_neg ha, if_pos (by simp [mapCount, hc])]
  by_cases hlt : c - 1 < 1
  · rw [if_pos hlt, if_pos (by simp [hc]; omega)]
    simp [mapErase]
  · rw [if_neg hlt, if_neg (by simp [hc]; omega)]
    simp [mapInsert, hc]

theorem modifyRuleCount_WF (m : RuleCountMap) (netId : Nat) (action : String)
    (h : RuleCountWF m) : RuleCountWF (modifyRuleCount m netId action) := by
  intro k c hk
  rcases eq_or_ne k netId with rfl | hne
  · by_cases ha : action = ADD
    · rw [ha, modifyRuleCount_apply_add] at hk
      rcases hm : m k with _ | v
      · simp [hm] at hk; omega
      · have hv := h k v hm
        simp [hm] at hk
        omega
    · rcases hm : m k with _ | v
      · rw [modifyRuleCount_apply_del_absent m k action ha hm] at hk
        cases hk
      · rw [modifyRuleCount_apply_del_present m k action v ha hm] at hk
        by_cases hlt : v - 1 < 1
        · rw [if_pos hlt] at hk; cases hk
        · rw [if_neg hlt] at hk
          simp at hk
          omega
  · rw [modifyRuleCount_apply_other m netId action k hne] at hk
    exact h k c hk

theorem applyOps_WF (ops : List (Nat × String)) : RuleCountWF (applyOps ops) := by
  suffices hgen : ∀ (m : RuleCountMap), RuleCountWF m →
      RuleCountWF (ops.foldl (fun m p => modifyRuleCount m p.1 p.2) m) by
    exact hgen emptyMap (fun k c hk => by simp [emptyMap] at hk)
  induction ops with
  | nil => intro m hm; exact hm
  | cons p rest ih =>
      intro m hm
      exact ih (modifyRuleCount m p.1 p.2) (modifyRuleCount_WF m p.1 p.2 hm)

/-- C3: after any sequence of `modifyRuleCount` operations starting from the
empty map, a network id is present in the reference-count map iff its count
is at least 1; no entry ever holds a count of 0 or a negative count. -/
theorem ruleCount_present_iff_positive (ops : List (Nat × String)) (k : Nat) :
    (((applyOps ops) k).isSome = true ↔
      ∃ c, (applyOps ops) k = some c ∧ 1 ≤ c) ∧
    ∀ c, (applyOps ops) k = some c → 1 ≤ c := by
  refine ⟨⟨fun hs => ?_, fun hc => ?_⟩, fun c hc => applyOps_WF ops k c hc⟩
  · rcases hm : (applyOps ops) k with _ | c
    · simp [hm] at hs
    · exact ⟨c, rfl, applyOps_WF ops k c hm⟩
  · rcases hc with ⟨c, hc, _⟩
    simp [hc]

/-- Witness for `ruleCount_present_iff_positive` at a concrete operation
sequence. -/
theorem ruleCount_present_iff_positive_witness :
    ∃ c, (applyOps [(5, ADD)]) 5 = some c ∧ 1 ≤ c :=
  (ruleCount_present_iff_positive [(5, ADD)] 5).1.mp (by decide)

/-- C4: on a map satisfying the reference-count invariant, an increment of a
netId followed by a decrement of the same netId restores the map exactly;
and a decrement of an absent netId is a no-op. -/
theorem increment_decrement_roundtrip (m : RuleCountMap) (netId : Nat)
    (h : ∀ c, m netId = some c → 1 ≤ c) :
    modifyRuleCount (modifyRuleCount m netId ADD) netId DEL = m ∧
    (m netId = none → modifyRuleCount m netId DEL = m) := by
  have hda : DEL ≠ ADD := by decide
  constructor
  · funext k
    rcases eq_or_ne k netId with rfl | hne
    · have hadd := modifyRuleCount_apply_add m k
      rw [modifyRuleCount_apply_del_present (modifyRuleCount m k ADD) k DEL
            ((m k).getD 0 + 1) hda hadd]
      rcases hm : m k with _ | v
      · simp [hm]
      · have hv := h v hm
        simp [hm]
        omega
    · rw [modifyRuleCount_apply_other _ netId DEL k hne,
          modifyRuleCount_apply_other m netId ADD k hne]
  · intro h0
    funext k
    rcases eq_or_ne k netId with rfl | hne
    · rw [modifyRuleCount_apply_del_absent m k DEL hda h0, h0]
    · rw [modifyRuleCount_apply_other m netId DEL k hne]

/-- Witness for `increment_decrement_roundtrip` at a concrete map. -/
theorem increment_decrement_roundtrip_witness :
    modifyRuleCount (modifyRuleCount sampleMap 7 ADD) 7 DEL = sampleMap ∧
    modifyRuleCount sampleMap 9 DEL = sampleMap := by
  have h7 := increment_decrement_roundtrip sampleMap 7
    (fun c hc => by
      simp [sampleMap, mapInsert, emptyMap] at hc
      omega)
  have h9 := increment_decrement_roundtrip sampleMap 9
    (fun c hc => by
      simp only [sampleMap, mapInsert, emptyMap] at hc
      cases hc)
  exact ⟨h7.1, h9.2 (by simp [sampleMap, mapInsert, emptyMap])⟩

/-- C5: in one `modifyRoute` call, command failure yields the failure report
with an untouched map, and command success yields the counted map with the
success report; a failure report and a map mutation never co-occur. -/
theorem modifyRoute_failure_vs_count (e : Env) (m : RuleCountMap)
    (action iface dest gateway : String) (pfx : Int) (netId : Nat) :
    ∃ cmd, (modifyRoute e m action iface dest pfx gateway netId).cmds = [cmd] ∧
      (e.exec cmd ≠ 0 →
        (modifyRoute e m action iface dest pfx gateway netId).ret = -1 ∧
        (modifyRoute e m action iface dest pfx gateway netId).map = m ∧
        (modifyRoute e m action iface dest pfx gateway netId).msgs =
          [(ResponseCode.OperationFailed, "ip route modification failed")] ∧
        (modifyRoute e m action iface dest pfx gateway netId).errnoSet =
          some ENODEV) ∧
      (e.exec cmd = 0 →
        (modifyRoute e m action iface dest pfx gateway netId).ret = 0 ∧
        (modifyRoute e m action iface dest pfx gateway netId).map =
          modifyRuleCount m netId action ∧
        (modifyRoute e m action iface dest pfx gateway netId).msgs =
          [(ResponseCode.CommandOkay, "Route modified")]) ∧
      ¬((ResponseCode.OperationFailed, "ip route modification failed") ∈
          (modifyRoute e m action iface dest pfx gateway netId).msgs ∧
        (modifyRoute e m action iface dest pfx gateway netId).map ≠ m) := by
  set cmd0 := (if gateway = "::" then
      KCmd.ip [IP_PATH, "route", action, dest ++ "/" ++ toString pfx, "dev",
        iface, "table", toString (netId + BASE_TABLE_NUMBER)]
    else
      KCmd.ip [IP_PATH, "route", action, dest ++ "/" ++ toString pfx, "via",
        gateway, "dev", iface, "table",
        toString (netId + BASE_TABLE_NUMBER)] : KCmd) with hcmd0
  by_cases h : e.exec cmd0 = 0
  · refine ⟨cmd0, ?_, fun hne => absurd h hne, fun _ => ?_, ?_⟩ <;>
      simp [modifyRoute, ← hcmd0, h]
  · refine ⟨cmd0, ?_, fun _ => ?_, fun h0 => absurd h0 h, ?_⟩ <;>
      simp [modifyRoute, ← hcmd0, h]

/-- Witness for `modifyRoute_failure_vs_count`: with an all-succeeding
executor the map is counted and the success message sent. -/
theorem modifyRoute_failure_vs_count_witness :
    (modifyRoute envAllOk emptyMap ADD "tun0" "10.0.0.0" 8 "::" 5).map =
      modifyRuleCount emptyMap 5 ADD ∧
    (modifyRoute envAllOk emptyMap ADD "tun0" "10.0.0.0" 8 "::" 5).msgs =
      [(ResponseCode.CommandOkay, "Route modified")] := by
  obtain ⟨cmd, -, -, hok, -⟩ :=
    modifyRoute_failure_vs_count envAllOk emptyMap ADD "tun0" "10.0.0.0"
      "::" 8 5
  exact (hok rfl).2

/-- C6 is refuted by the code: with the all-zero IPv4 gateway `"0.0.0.0"`
(a "no gateway" sentinel per the claim) the emitted route command carries a
`via` clause rather than being `dev`-only; only the literal `"::"` is
special-cased. -/
theorem modifyRoute_allzero_v4_gateway_gets_via :
    (modifyRoute envAllOk emptyMap ADD "eth0" "10.0.0.0" 8 "0.0.0.0" 5).cmds =
      [KCmd.ip [IP_PATH, "route", ADD, "10.0.0.0/8", "via", "0.0.0.0", "dev",
        "eth0", "table", "1005"]] ∧
    "via" ∈ ["10.0.0.0/8", "via", "0.0.0.0"] := by
  constructor
  · decide
  · decide

/-- C6 amended: the "no gateway" sentinel recognized by the code is exactly
the literal string `"::"`; a call with gateway `"::"` emits the `dev`-only
route command and every other gateway value (including `"0.0.0.0"`) emits
the `via`-gateway command. -/
theorem modifyRoute_gateway_sentinel (e : Env) (m : RuleCountMap)
    (action iface dest gateway : String) (pfx : Int) (netId : Nat) :
    (gateway = "::" →
      (modifyRoute e m action iface dest pfx gateway netId).cmds =
        [KCmd.ip [IP_PATH, "route", action, dest ++ "/" ++ toString pfx,
          "dev", iface, "table", toString (netId + BASE_TABLE_NUMBER)]]) ∧
    (gateway ≠ "::" →
      (modifyRoute e m action iface dest pfx gateway netId).cmds =
        [KCmd.ip [IP_PATH, "route", action, dest ++ "/" ++ toString pfx,
          "via", gateway, "dev", iface, "table",
          toString (netId + BASE_TABLE_NUMBER)]]) := by
  constructor <;> intro hg
  · by_cases hx : e.exec (KCmd.ip [IP_PATH, "route", action,
        dest ++ "/" ++ toString pfx, "dev", iface, "table",
        toString (netId + BASE_TABLE_NUMBER)]) = 0 <;>
      simp [modifyRoute, hg, hx]
  · by_cases hx : e.exec (KCmd.ip [IP_PATH, "route", action,
        dest ++ "/" ++ toString pfx, "via", gateway, "dev", iface, "table",
        toString (netId + BASE_TABLE_NUMBER)]) = 0 <;>
      simp [modifyRoute, hg, hx]

/-- Witness for `modifyRoute_gateway_sentinel` at a concrete non-sentinel
gateway. -/
theorem modifyRoute_gateway_sentinel_witness :
    (modifyRoute envAllOk emptyMap ADD "eth0" "10.0.0.0" 8 "192.168.1.1"
        5).cmds =
      [KCmd.ip [IP_PATH, "route", ADD, "10.0.0.0" ++ "/" ++ toString (8 : Int),
        "via", "192.168.1.1", "dev", "eth0", "table",
        toString (5 + BASE_TABLE_NUMBER)]] :=
  (modifyRoute_gateway_sentinel envAllOk emptyMap ADD "eth0" "10.0.0.0"
    "192.168.1.1" 8 5).2 (by decide)

/-- C2: `addFwmarkRule` (enable) on an interface whose network id already
holds rule references issues no kernel command, leaves the map unchanged,
sets `errno = EBUSY`, and returns −1. -/
theorem addFwmarkRule_busy (e : Env) (m : RuleCountMap) (iface : String)
    (h : 0 < mapCount m (e.getNetworkId iface)) :
    (addFwmarkRule e m iface).cmds = [] ∧
    (addFwmarkRule e m iface).map = m ∧
    (addFwmarkRule e m iface).errnoSet = some EBUSY ∧
    (addFwmarkRule e m iface).ret = -1 := by
  simp [addFwmarkRule, setFwmarkRule, h]

/-- Witness for `addFwmarkRule_busy` at a concrete busy map. -/
theorem addFwmarkRule_busy_witness :
    (addFwmarkRule envAllOk busyMap "tun0").cmds = [] ∧
    (addFwmarkRule envAllOk busyMap "tun0").map = busyMap ∧
    (addFwmarkRule envAllOk busyMap "tun0").errnoSet = some EBUSY ∧
    (addFwmarkRule envAllOk busyMap "tun0").ret = -1 :=
  addFwmarkRule_busy envAllOk busyMap "tun0" (by decide)

/-- C9: the busy guard covers the disable direction too: `removeFwmarkRule`
on a busy network id issues no kernel command, sets `errno = EBUSY`, and
fails; and `setFwmarkRule` behaves this way for both values of `add`. -/
theorem removeFwmarkRule_busy (e : Env) (m : RuleCountMap) (iface : String)
    (h : 0 < mapCount m (e.getNetworkId iface)) :
    (removeFwmarkRule e m iface).cmds = [] ∧
    (removeFwmarkRule e m iface).errnoSet = some EBUSY ∧
    (removeFwmarkRule e m iface).ret = -1 ∧
    ∀ add : Bool, (setFwmarkRule e m iface add).cmds = [] ∧
      (setFwmarkRule e m iface add).errnoSet = some EBUSY := by
  refine ⟨?_, ?_, ?_, fun add => ⟨?_, ?_⟩⟩ <;>
    simp [removeFwmarkRule, setFwmarkRule, h]

/-- Witness for `removeFwmarkRule_busy` at a concrete busy map. -/
theorem removeFwmarkRule_busy_witness :
    (removeFwmarkRule envAllOk busyMap "tun0").cmds = [] ∧
    (removeFwmarkRule envAllOk busyMap "tun0").errnoSet = some EBUSY :=
  ⟨(removeFwmarkRule_busy envAllOk busyMap "tun0" (by decide)).1,
   (removeFwmarkRule_busy envAllOk busyMap "tun0" (by decide)).2.1⟩

theorem setFwmarkRule_map_eq (e : Env) (m : RuleCountMap) (iface : String)
    (add : Bool) : (setFwmarkRule e m iface add).map = m := by
  by_cases hb : 0 < mapCount m (e.getNetworkId iface)
  · simp [setFwmarkRule, hb]
  · by_cases h2 : e.exec (fwmark_cmd add (markStr (e.getNetworkId iface))) = 0 <;>
    by_cases h4 : e.exec (fwmark6_cmd add (markStr (e.getNetworkId iface))) = 0 <;>
    by_cases h5 : e.exec (nat_cmd IptTarget.V4 add iface
      (markStr (e.getNetworkId iface))) = 0 <;>
    by_cases h6 : e.exec (nat_cmd IptTarget.V6 add iface
      (markStr (e.getNetworkId iface))) = 0 <;>
    simp [setFwmarkRule, hb, h2, h4, h5, h6]

/-- C10: `setFwmarkRule` never mutates the reference-count map, in either
direction and whatever the sub-step results; hence a second call on the
same clean interface is not stopped by the busy guard: it is not an EBUSY
failure and it does issue kernel commands. -/
theorem setFwmarkRule_preserves_refcounts (e : Env) (m : RuleCountMap)
    (iface : String) (add : Bool) :
    (setFwmarkRule e m iface add).map = m ∧
    (m (e.getNetworkId iface) = none →
      ∀ add2 : Bool,
        (setFwmarkRule e (setFwmarkRule e m iface add).map iface
          add2).errnoSet ≠ some EBUSY ∧
        (setFwmarkRule e (setFwmarkRule e m iface add).map iface
          add2).cmds ≠ []) := by
  refine ⟨setFwmarkRule_map_eq e m iface add, fun h add2 => ?_⟩
  rw [setFwmarkRule_map_eq e m iface add]
  have hguard : ¬ 0 < mapCount m (e.getNetworkId iface) := by
    simp [mapCount, h]
  refine ⟨?_, ?_⟩ <;>
  · by_cases h2 : e.exec (fwmark_cmd add2 (markStr (e.getNetworkId iface))) = 0 <;>
    by_cases h4 : e.exec (fwmark6_cmd add2 (markStr (e.getNetworkId iface))) = 0 <;>
    by_cases h5 : e.exec (nat_cmd IptTarget.V4 add2 iface
      (markStr (e.getNetworkId iface))) = 0 <;>
    by_cases h6 : e.exec (nat_cmd IptTarget.V6 add2 iface
      (markStr (e.getNetworkId iface))) = 0 <;>
    simp [setFwmarkRule, hguard, h2, h4, h5, h6, mangleCmdsAdd,
      mangleCmdsDel]

/-- Witness for `setFwmarkRule_preserves_refcounts` on the empty map. -/
theorem setFwmarkRule_preserves_refcounts_witness :
    (setFwmarkRule envAllOk (setFwmarkRule envAllOk emptyMap "tun0" true).map
      "tun0" true).errnoSet ≠ some EBUSY :=
  ((setFwmarkRule_preserves_refcounts envAllOk emptyMap "tun0" true).2
    rfl true).1

/-- C1 is refuted by the code in both of its conjuncts, each at a concrete
input. (a) Aggregation: in an enable run where the v4 default-route sub-step
fails (exit 1) and every other sub-step succeeds, the failed command is
attempted (it appears in the issued commands) yet `setFwmarkRule` returns 0:
its result is silently overwritten by the following `ret = runCmd(...)`
assignment, so the aggregate is not an OR of all sub-step results. (b) Full
attempt: in an enable run where the v4 fwmark policy-rule sub-step fails,
the call returns after issuing only the first two commands; the v6
default-route sub-step (and every sub-step after it) is never attempted. -/
theorem setFwmarkRule_swallows_route_failure :
    ((setFwmarkRule envRouteFails emptyMap "tun0" true).ret = 0 ∧
     route_cmd true "tun0" (markStr 5) ∈
       (setFwmarkRule envRouteFails emptyMap "tun0" true).cmds ∧
     envRouteFails.exec (route_cmd true "tun0" (markStr 5)) = 1) ∧
    ((setFwmarkRule envFwmarkFails emptyMap "tun0" true).cmds =
       [route_cmd true "tun0" (markStr 5), fwmark_cmd true (markStr 5)] ∧
     route6_cmd true "tun0" (markStr 5) ∉
       (setFwmarkRule envFwmarkFails emptyMap "tun0" true).cmds ∧
     envFwmarkFails.exec (fwmark_cmd true (markStr 5)) = 1) := by
  refine ⟨⟨?_, ?_, ?_⟩, ?_, ?_, ?_⟩ <;> decide

/-- C1 amended: past the busy guard, sub-steps are neither all attempted
nor OR-aggregated.  The operation returns 0 iff the v4 fwmark-rule,
v6 fwmark-rule and v4 NAT sub-steps succeed and either the v6 NAT sub-step
or its REJECT fallback succeeds — the v4 default-route, v6 default-route
and mangle-chain results are overwritten rather than OR-combined; and the
sequence short-circuits, skipping all later sub-steps, at each of its three
early returns: a v4 fwmark-rule failure leaves only the first two commands
issued, a v6 fwmark-rule failure only the first four, and a v4 NAT failure
only the first four plus the mangle-chain block and the v4 NAT command. -/
theorem setFwmarkRule_return_characterization (e : Env) (m : RuleCountMap)
    (iface : String) (add : Bool) (h : m (e.getNetworkId iface) = none) :
    ((setFwmarkRule e m iface add).ret = 0 ↔
      (e.exec (fwmark_cmd add (markStr (e.getNetworkId iface))) = 0 ∧
       e.exec (fwmark6_cmd add (markStr (e.getNetworkId iface))) = 0 ∧
       e.exec (nat_cmd IptTarget.V4 add iface
         (markStr (e.getNetworkId iface))) = 0 ∧
       (e.exec (nat_cmd IptTarget.V6 add iface
          (markStr (e.getNetworkId iface))) = 0 ∨
        e.exec (reject_cmd add (markStr (e.getNetworkId iface))) = 0))) ∧
    (e.exec (fwmark_cmd add (markStr (e.getNetworkId iface))) ≠ 0 →
      (setFwmarkRule e m iface add).cmds =
        [route_cmd add iface (markStr (e.getNetworkId iface)),
         fwmark_cmd add (markStr (e.getNetworkId iface))]) ∧
    (e.exec (fwmark_cmd add (markStr (e.getNetworkId iface))) = 0 →
      e.exec (fwmark6_cmd add (markStr (e.getNetworkId iface))) ≠ 0 →
      (setFwmarkRule e m iface add).cmds =
        [route_cmd add iface (markStr (e.getNetworkId iface)),
         fwmark_cmd add (markStr (e.getNetworkId iface)),
         route6_cmd add iface (markStr (e.getNetworkId iface)),
         fwmark6_cmd add (markStr (e.getNetworkId iface))]) ∧
    (e.exec (fwmark_cmd add (markStr (e.getNetworkId iface))) = 0 →
      e.exec (fwmark6_cmd add (markStr (e.getNetworkId iface))) = 0 →
      e.exec (nat_cmd IptTarget.V4 add iface
        (markStr (e.getNetworkId iface))) ≠ 0 →
      (setFwmarkRule e m iface add).cmds =
        [route_cmd add iface (markStr (e.getNetworkId iface)),
         fwmark_cmd add (markStr (e.getNetworkId iface)),
         route6_cmd add iface (markStr (e.getNetworkId iface)),
         fwmark6_cmd add (markStr (e.getNetworkId iface))] ++
        (if add then mangleCmdsAdd iface (markStr (e.getNetworkId iface))
         else mangleCmdsDel iface (markStr (e.getNetworkId iface))) ++
        [nat_cmd IptTarget.V4 add iface
          (markStr (e.getNetworkId iface))]) := by
  have hguard : ¬ 0 < mapCount m (e.getNetworkId iface) := by
    simp [mapCount, h]
  refine ⟨?_, ?_, ?_, ?_⟩
  · by_cases h2 : e.exec (fwmark_cmd add (markStr (e.getNetworkId iface))) = 0 <;>
    by_cases h4 : e.exec (fwmark6_cmd add (markStr (e.getNetworkId iface))) = 0 <;>
    by_cases h5 : e.exec (nat_cmd IptTarget.V4 add iface
      (markStr (e.getNetworkId iface))) = 0 <;>
    by_cases h6 : e.exec (nat_cmd IptTarget.V6 add iface
      (markStr (e.getNetworkId iface))) = 0 <;>
    simp [setFwmarkRule, hguard, h2, h4, h5, h6]
  · intro h2
    simp [setFwmarkRule, hguard, h2]
  · intro h2 h4
    simp [setFwmarkRule, hguard, h2, h4]
  · intro h2 h4 h5
    simp [setFwmarkRule, hguard, h2, h4, h5]

/-- Witness for `setFwmarkRule_return_characterization` with the
all-succeeding executor. -/
theorem setFwmarkRule_return_characterization_witness :
    (setFwmarkRule envAllOk emptyMap "tun0" true).ret = 0 :=
  (setFwmarkRule_return_characterization envAllOk emptyMap "tun0" true
    rfl).1.mpr ⟨rfl, rfl, rfl, Or.inl rfl⟩

/-- C7: in an enable run that reaches the NAT stage (busy guard passed,
fwmark rules installed, v4 NAT succeeded): if the v6 NAT masquerade command
fails, the v6 REJECT fallback for this mark is issued (as the last command,
and its status is returned); if the v6 NAT command succeeds, no REJECT
command is issued at all. -/
theorem setFwmarkRule_v6nat_reject_fallback (e : Env) (m : RuleCountMap)
    (iface : String) (h : m (e.getNetworkId iface) = none)
    (h2 : e.exec (fwmark_cmd true (markStr (e.getNetworkId iface))) = 0)
    (h4 : e.exec (fwmark6_cmd true (markStr (e.getNetworkId iface))) = 0)
    (h5 : e.exec (nat_cmd IptTarget.V4 true iface
      (markStr (e.getNetworkId iface))) = 0) :
    (e.exec (nat_cmd IptTarget.V6 true iface
        (markStr (e.getNetworkId iface))) ≠ 0 →
      (setFwmarkRule e m iface true).cmds =
        [route_cmd true iface (markStr (e.getNetworkId iface)),
         fwmark_cmd true (markStr (e.getNetworkId iface)),
         route6_cmd true iface (markStr (e.getNetworkId iface)),
         fwmark6_cmd true (markStr (e.getNetworkId iface))] ++
        mangleCmdsAdd iface (markStr (e.getNetworkId iface)) ++
        [nat_cmd IptTarget.V4 true iface (markStr (e.getNetworkId iface)),
         nat_cmd IptTarget.V6 true iface (markStr (e.getNetworkId iface)),
         reject_cmd true (markStr (e.getNetworkId iface))] ∧
      (setFwmarkRule e m iface true).ret =
        e.exec (reject_cmd true (markStr (e.getNetworkId iface)))) ∧
    (e.exec (nat_cmd IptTarget.V6 true iface
        (markStr (e.getNetworkId iface))) = 0 →
      reject_cmd true (markStr (e.getNetworkId iface)) ∉
        (setFwmarkRule e m iface true).cmds) := by
  have hguard : ¬ 0 < mapCount m (e.getNetworkId iface) := by
    simp [mapCount, h]
  constructor
  · intro h6
    constructor <;> simp [setFwmarkRule, hguard, h2, h4, h5, h6]
  · intro h6
    simp only [setFwmarkRule, hguard, h2, h4, h5, h6]
    simp [hguard, h2, h4, h5, h6, route_cmd, fwmark_cmd, route6_cmd,
      fwmark6_cmd, mangleCmdsAdd, nat_cmd, reject_cmd]

/-- Witness for `setFwmarkRule_v6nat_reject_fallback` on the environment
lacking v6 NAT. -/
theorem setFwmarkRule_v6nat_reject_fallback_witness :
    reject_cmd true (markStr 5) ∈
      (setFwmarkRule envNoV6Nat emptyMap "tun0" true).cmds := by
  have hmem :=
    ((setFwmarkRule_v6nat_reject_fallback envNoV6Nat emptyMap "tun0" rfl
      (by decide) (by decide) (by decide)).1 (by decide)).1
  rw [hmem]
  decide

/-- C8: `setUidRule` aborts with `errno = EINVAL`, returning −1 and issuing
no kernel command, when the identity registry rejects the UID-range binding;
only after registry acceptance is the single owner-match rule command
issued. -/
theorem setUidRule_registry_guard (e : Env) (iface : String)
    (uid_start uid_end : Int) (add : Bool) :
    (e.setNetworkForUidRange uid_start uid_end
        (if add then e.getNetworkId iface else 0) false = false →
      (setUidRule e iface uid_start uid_end add).cmds = [] ∧
      (setUidRule e iface uid_start uid_end add).errnoSet = some EINVAL ∧
      (setUidRule e iface uid_start uid_end add).ret = -1) ∧
    (e.setNetworkForUidRange uid_start uid_end
        (if add then e.getNetworkId iface else 0) false = true →
      (setUidRule e iface uid_start uid_end add).cmds =
        [uid_cmd add iface uid_start uid_end] ∧
      (setUidRule e iface uid_start uid_end add).errnoSet = none ∧
      (setUidRule e iface uid_start uid_end add).ret =
        e.exec (uid_cmd add iface uid_start uid_end)) := by
  constructor <;> intro hr <;> simp [setUidRule, hr]

/-- Witness for `setUidRule_registry_guard` on the rejecting registry. -/
theorem setUidRule_registry_guard_witness :
    (setUidRule envRegistryReject "tun0" 10000 10999 true).cmds = [] ∧
    (setUidRule envRegistryReject "tun0" 10000 10999 true).errnoSet =
      some EINVAL :=
  ⟨((setUidRule_registry_guard envRegistryReject "tun0" 10000 10999
      true).1 rfl).1,
   ((setUidRule_registry_guard envRegistryReject "tun0" 10000 10999
      true).1 rfl).2.1⟩

end STC
